import Mathlib

/-!
Verification of the intent and entity resolution engine of the baller
repository (src/bot/intent/{entities,context,cache,processor}.py), as a
shallow embedding in Lean.

Modelling conventions, used consistently below:
* Python `float` time and confidence values are modelled as `ℚ`.
* Calendar dates are modelled as `Int` day numbers with day 0 a Monday, so
  `d % 7` is the Python `date.weekday()` (Monday = 0 .. Sunday = 6) and adding
  a `timedelta(days = k)` is `d + k`.
* Python `dict` is an insertion-ordered association list: updating an
  existing key keeps its position, a new key is appended (`dictSet`).
* Python strings are `String`; the regex scans of the source operate on
  `List Char` with explicit character positions, exactly as `re` positions
  index the lowercased text.
* Fallible code (attribute access on `None`) is `Except String`.
-/

/-- Lookup in an insertion-ordered dict: first (and only) binding of `k`. -/
def dictGet {κ α : Type} [DecidableEq κ] : List (κ × α) → κ → Option α
  | [], _ => none
  | (k', v) :: rest, k => if k' = k then some v else dictGet rest k

/-- `d[k] = v` on an insertion-ordered dict: update in place, else append. -/
def dictSet {κ α : Type} [DecidableEq κ] : List (κ × α) → κ → α → List (κ × α)
  | [], k, v => [(k, v)]
  | (k', v') :: rest, k, v =>
    if k' = k then (k', v) :: rest else (k', v') :: dictSet rest k v

/-- Python truthiness of an optional int (`None` and `0` are falsy). -/
def truthyOptInt : Option Int → Bool
  | none => false
  | some i => i != 0

/-- Python truthiness of an optional string (`None` and `""` are falsy). -/
def truthyOptStr : Option String → Bool
  | none => false
  | some s => s != ""

/-- The stable Python `list.sort(key = k, reverse = True)` (descending). -/
def pythonSortDesc {α β : Type} [LinearOrder β] (key : α → β) (l : List α) : List α :=
  @List.insertionSort α (fun a b => key b ≤ key a)
    (fun a b => inferInstanceAs (Decidable (key b ≤ key a))) l

/-- The stable Python `sorted(key = k)` (ascending). -/
def pythonSortAsc {α β : Type} [LinearOrder β] (key : α → β) (l : List α) : List α :=
  @List.insertionSort α (fun a b => key a ≤ key b)
    (fun a b => inferInstanceAs (Decidable (key a ≤ key b))) l

/-- A word character for the regex `\b` boundary (`[a-z0-9_]` after lowering). -/
def isWordChar (c : Char) : Bool := c.isAlphanum || c == '_'

/-- `leadsList pat text`: `pat` is an initial segment of `text`. -/
def leadsList : List Char → List Char → Bool
  | [], _ => true
  | _ :: _, [] => false
  | p :: ps, c :: cs => p == c && leadsList ps cs

/-- The Python substring test `pat in text` (no word boundaries). -/
def hasSegment : List Char → List Char → Bool
  | [], pat => leadsList pat []
  | c :: cs, pat => leadsList pat (c :: cs) || hasSegment cs pat

/-- One alternative of a `\b(?:a1|a2|...)\b` pattern matches at the head of
`rest` with a word boundary after it.  (All alternatives used below are
nonempty and end in a word character, as in the tables of the source.) -/
def altOk (rest : List Char) (alt : List Char) : Bool :=
  leadsList alt rest &&
    (match rest.drop alt.length with
     | [] => true
     | c :: _ => !isWordChar c)

/-- The scan loop of `re.finditer` for a pattern `\b(?:a1|a2|...)\b` whose
alternatives are literal strings starting with a word character: at each
position with a word boundary before it, the first alternative that matches
with a boundary after it wins, and scanning resumes after the match.  `fuel`
only bounds the recursion; `text.length + 1` is always enough.  Returns
`(start, end, matched)` triples. -/
def findIterAux (alts : List (List Char)) :
    Nat → Option Char → List Char → Nat → List (Nat × Nat × List Char)
  | 0, _, _, _ => []
  | fuel + 1, prev, rest, pos =>
    match rest with
    | [] => []
    | c :: cs =>
      let boundary := match prev with
        | none => true
        | some p => !isWordChar p
      if boundary then
        match alts.find? (altOk rest) with
        | some alt =>
          (pos, pos + alt.length, alt) ::
            findIterAux alts fuel alt.getLast? (rest.drop alt.length) (pos + alt.length)
        | none => findIterAux alts fuel (some c) cs (pos + 1)
      else findIterAux alts fuel (some c) cs (pos + 1)

/-- `re.finditer` over `text` for a word-bounded alternation. -/
def findIter (alts : List (List Char)) (text : List Char) : List (Nat × Nat × List Char) :=
  findIterAux alts (text.length + 1) none text 0

/-- Boolean `re.search` for a word-bounded alternation. -/
def reSearch (alts : List String) (text : List Char) : Bool :=
  !(findIter (alts.map String.data) text).isEmpty

/-- The Python `str.lower()` on ASCII text, as a character list (the regex
scans index this lowered list). -/
def toLowerStr (s : String) : List Char := s.data.map Char.toLower

/-- The error payload of an `Except`, if any. -/
def exceptError : {α : Type} → Except String α → Option String
  | _, .error e => some e
  | _, .ok _ => none

/-- The Python `str.isdigit()` restricted to ASCII digits. -/
def pyIsDigit (s : String) : Bool := !s.data.isEmpty && s.data.all Char.isDigit

/-- The Python `int(s)` on an all-digit string. -/
def strToInt (s : String) : Int :=
  Int.ofNat (s.data.foldl (fun acc c => acc * 10 + (c.toNat - '0'.toNat)) 0)

/-- `date.weekday()` in the Int-day model (day 0 is a Monday). -/
def pyWeekday (d : Int) : Int := d % 7

/-- `entities.py` lines 157-164: Saturday of "this weekend",
`today + (5 - today.weekday()) % 7`. -/
def weekendSaturday (today : Int) : Int := today + (5 - pyWeekday today) % 7

/-- `entities.py` lines 178-184: Saturday of "next weekend"; when
`days_until_saturday` is 0 (today is Saturday) it becomes 7. -/
def nextWeekendSaturday (today : Int) : Int :=
  let days := (5 - pyWeekday today) % 7
  let days := if days = 0 then 7 else days
  today + days

/-- `EntityType` (entities.py lines 16-30). -/
inductive EntityType where
  | team | competition | player | date | matchday | timeframe
  | status | group | stage | venue | score | limit | unknown
deriving DecidableEq

/-- `EntityType.value`: the string payload of each enum member. -/
def EntityType.value : EntityType → String
  | .team => "team"
  | .competition => "competition"
  | .player => "player"
  | .date => "date"
  | .matchday => "matchday"
  | .timeframe => "timeframe"
  | .status => "status"
  | .group => "group"
  | .stage => "stage"
  | .venue => "venue"
  | .score => "score"
  | .limit => "limit"
  | .unknown => "unknown"

/-- The metadata dict attached to entities; the keys that the source ever
writes, each `none` when absent.  Dates are Int day numbers. -/
structure Metadata where
  date : Option Int := none
  date_from : Option Int := none
  date_to : Option Int := none
  shortName : Option String := none
  tla : Option String := none
deriving DecidableEq

/-- `Entity` (entities.py lines 32-40).  The source field `end` is named
`stop` here because `end` is a Lean keyword. -/
structure Entity where
  type : EntityType
  value : String
  id : Option Int := none
  confidence : ℚ := 1
  start : Int := -1
  stop : Int := -1
  metadata : Metadata := {}
deriving DecidableEq

/-- A cached team/competition record (the dict fields the source reads). -/
structure TeamData where
  name : Option String := none
  id : Option Int := none
  shortName : Option String := none
  tla : Option String := none
deriving DecidableEq

/-- `EntityExtractor.COMPETITION_PATTERNS` (entities.py lines 46-66):
alternation alternatives in source order, canonical name, canonical id. -/
def COMPETITION_PATTERNS : List (List String × Option String × Option Int) :=
  [ (["premier league", "epl", "english premier league"], some "Premier League", some 2021),
    (["la liga", "laliga", "spanish la liga"], some "La Liga", some 2014),
    (["bundesliga", "german bundesliga"], some "Bundesliga", some 2002),
    (["serie a", "italian serie a"], some "Serie A", some 2019),
    (["ligue 1", "french ligue 1"], some "Ligue 1", some 2015),
    (["champions league", "ucl", "uefa champions league"], some "UEFA Champions League", some 2001),
    (["europa league", "uel", "uefa europa league"], some "UEFA Europa League", some 2146),
    (["world cup", "fifa world cup"], some "FIFA World Cup", some 2000),
    (["competition"], none, none) ]

/-- `EntityExtractor.TIMEFRAME_PATTERNS` (entities.py lines 69-77). -/
def TIMEFRAME_PATTERNS : List (List String × String × Option Int) :=
  [ (["today", "tonight"], "today", some 0),
    (["tomorrow"], "tomorrow", some 1),
    (["yesterday"], "yesterday", some (-1)),
    (["this weekend", "upcoming weekend"], "weekend", none),
    (["this week", "current week"], "week", none),
    (["next week"], "next_week", none),
    (["next weekend"], "next_weekend", none) ]

/-- `EntityExtractor.STATUS_PATTERNS` (entities.py lines 80-86).  The
quantifiers of `full-?time` are expanded into the two literal alternatives
in greedy order. -/
def STATUS_PATTERNS : List (List String × String) :=
  [ (["scheduled", "upcoming", "future"], "SCHEDULED"),
    (["live", "ongoing", "in progress"], "IN_PLAY"),
    (["finished", "completed", "past", "final", "full-time", "fulltime"], "FINISHED"),
    (["postponed"], "POSTPONED"),
    (["canceled", "cancelled"], "CANCELLED") ]

/-- `EntityExtractor` state: the injected team table and its lowercased
name index (entities.py lines 88-96). -/
structure EntityExtractor where
  team_cache : List (String × TeamData) := []
  team_names_lower : List (String × String) := []
deriving DecidableEq

/-- `EntityExtractor.__init__`: derive the lowercase index (empty cache gives
an empty index, matching the `if team_cache else {}`). -/
def EntityExtractor.create (cache : List (String × TeamData)) : EntityExtractor :=
  { team_cache := cache,
    team_names_lower := cache.foldl (fun d p => dictSet d (String.mk (toLowerStr p.1)) p.1) [] }

/-- `EntityExtractor._extract_competitions` (entities.py lines 130-143). -/
def extract_competitions (tl : List Char) : List Entity :=
  COMPETITION_PATTERNS.flatMap (fun pat =>
    (findIter (pat.1.map String.data) tl).map (fun m =>
      { type := .competition,
        value := match pat.2.1 with
          | some n => n
          | none => String.mk m.2.2,
        id := pat.2.2,
        confidence := if truthyOptInt pat.2.2 then 9/10 else 7/10,
        start := Int.ofNat m.1,
        stop := Int.ofNat m.2.1,
        metadata := {} }))

/-- The metadata computed for a timeframe match (entities.py lines 150-187). -/
def timeframeMetadata (today : Int) (name : String) (days_offset : Option Int) : Metadata :=
  match days_offset with
  | some off => { date := some (today + off) }
  | none =>
    if name = "weekend" then
      { date_from := some (weekendSaturday today),
        date_to := some (weekendSaturday today + 1) }
    else if name = "week" then
      { date_from := some today, date_to := some (today + 7) }
    else if name = "next_week" then
      { date_from := some (today + 7), date_to := some (today + 14) }
    else if name = "next_weekend" then
      { date_from := some (nextWeekendSaturday today),
        date_to := some (nextWeekendSaturday today + 1) }
    else {}

/-- `EntityExtractor._extract_timeframes` (entities.py lines 145-198). -/
def extract_timeframes (today : Int) (tl : List Char) : List Entity :=
  TIMEFRAME_PATTERNS.flatMap (fun pat =>
    (findIter (pat.1.map String.data) tl).map (fun m =>
      { type := .timeframe,
        value := pat.2.1,
        id := none,
        confidence := 9/10,
        start := Int.ofNat m.1,
        stop := Int.ofNat m.2.1,
        metadata := timeframeMetadata today pat.2.1 pat.2.2 }))

/-- `EntityExtractor._extract_statuses` (entities.py lines 200-213). -/
def extract_statuses (tl : List Char) : List Entity :=
  STATUS_PATTERNS.flatMap (fun pat =>
    (findIter (pat.1.map String.data) tl).map (fun m =>
      { type := .status,
        value := pat.2,
        id := none,
        confidence := 8/10,
        start := Int.ofNat m.1,
        stop := Int.ofNat m.2.1,
        metadata := {} }))

/-- `EntityExtractor._extract_teams` (entities.py lines 215-236): exact
word-bounded matches of each cached lowercased name. -/
def extract_teams (ex : EntityExtractor) (tl : List Char) : List Entity :=
  ex.team_names_lower.flatMap (fun p =>
    match dictGet ex.team_cache p.2 with
    | none => []
    | some td =>
      (findIter [p.1.data] tl).map (fun m =>
        { type := .team,
          value := p.2,
          id := td.id,
          confidence := 95/100,
          start := Int.ofNat m.1,
          stop := Int.ofNat m.2.1,
          metadata := { shortName := td.shortName, tla := td.tla } }))

/-- `EntityExtractor.extract_entities` (entities.py lines 98-128): the four
passes in order, entities with a -1 span dropped, stable-sorted by start. -/
def EntityExtractor.extract_entities (ex : EntityExtractor) (today : Int) (text : String) : List Entity :=
  let tl := toLowerStr text
  let entities :=
    extract_competitions tl ++ extract_timeframes today tl ++ extract_statuses tl ++
      (if ex.team_cache.isEmpty then [] else extract_teams ex tl)
  pythonSortAsc (fun e => e.start) (entities.filter (fun e => decide (e.start ≠ -1)))

/-- One stored record of `recent_intents` (context.py lines 99-104). -/
structure RecentIntent where
  name : String
  confidence : ℚ
  entities : List (String × Entity)
  timestamp : ℚ
deriving DecidableEq

/-- `ConversationContext` state (context.py lines 29-39). -/
structure ConversationContext where
  user_id : String
  entities : List (EntityType × List Entity) := []
  entity_timestamps : List (String × ℚ) := []
  recent_intents : List RecentIntent := []
  last_active : ℚ
deriving DecidableEq

/-- `ConversationContext.__init__` at wall-clock time `now`. -/
def ConversationContext.create (user_id : String) (now : ℚ) : ConversationContext :=
  { user_id := user_id, last_active := now }

/-- The `type:value[:id]` timestamp key of an entity (context.py lines 55-58,
212-214, 228-230); the id part is appended only when `entity.id` is truthy. -/
def entityKey (e : Entity) : String :=
  e.type.value ++ ":" ++ e.value ++
    (if truthyOptInt e.id then ":" ++ (match e.id with | some i => toString i | none => "") else "")

/-- The existing-entity test of `add_entities` (context.py lines 61-63):
same case-insensitive value and same id (the list is already per-type). -/
def entityMatches (e x : Entity) : Bool :=
  toLowerStr x.value == toLowerStr e.value && x.id == e.id

/-- The replacement entity built at context.py lines 69-79: the fields of the new entity,
 with the higher of the two confidences. -/
def updatedEntity (old new : Entity) : Entity :=
  { type := new.type, value := new.value, id := new.id,
    confidence := max old.confidence new.confidence,
    start := new.start, stop := new.stop, metadata := new.metadata }

/-- The per-type list update of `add_entities`: replace the first matching
entity in place, else append (context.py lines 60-83). -/
def updateList (e : Entity) : List Entity → List Entity
  | [] => [e]
  | x :: xs => if entityMatches e x then updatedEntity x e :: xs else x :: updateList e xs

/-- One iteration of the `add_entities` loop (context.py lines 50-86). -/
def addOneEntity (now : ℚ) (ctx : ConversationContext) (e : Entity) : ConversationContext :=
  { ctx with
    entities := dictSet ctx.entities e.type (updateList e ((dictGet ctx.entities e.type).getD [])),
    entity_timestamps := dictSet ctx.entity_timestamps (entityKey e) now }

/-- `ConversationContext.add_entities` (context.py lines 41-86). -/
def ConversationContext.add_entities (ctx : ConversationContext) (now : ℚ) (es : List Entity) : ConversationContext :=
  es.foldl (addOneEntity now) { ctx with last_active := now }

/-- `ConversationContext.add_intent` (context.py lines 88-105): append and
keep the last 5. -/
def ConversationContext.add_intent (ctx : ConversationContext) (now : ℚ)
    (name : String) (confidence : ℚ) (entities : List (String × Entity)) : ConversationContext :=
  let ri := ctx.recent_intents ++
    [{ name := name, confidence := confidence, entities := entities, timestamp := now }]
  { ctx with last_active := now, recent_intents := ri.drop (ri.length - 5) }

/-- `ConversationContext._is_entity_active` (context.py lines 202-217): a
missing timestamp defaults to 0. -/
def ConversationContext.is_entity_active (ctx : ConversationContext) (e : Entity) (now : ℚ) : Bool :=
  decide (now - (dictGet ctx.entity_timestamps (entityKey e)).getD 0 ≤ 3600)

/-- `ConversationContext._clean_expired_entities` (context.py lines 175-200). -/
def ConversationContext.clean_expired (ctx : ConversationContext) (now : ℚ) : ConversationContext :=
  { ctx with
    entities :=
      (ctx.entities.map (fun p => (p.1, p.2.filter (fun e => ctx.is_entity_active e now)))).filter
        (fun p => !p.2.isEmpty),
    entity_timestamps := ctx.entity_timestamps.filter (fun p => decide (now - p.2 ≤ 3600)),
    recent_intents := ctx.recent_intents.filter (fun r => decide (now - r.timestamp ≤ 3600)) }

/-- `ConversationContext.get_entities_by_type` (context.py lines 107-117):
prune, then return the (possibly empty) per-type list, together with the
pruned context (the source prunes in place). -/
def ConversationContext.get_entities_by_type (ctx : ConversationContext) (now : ℚ)
    (t : EntityType) : List Entity × ConversationContext :=
  let ctx' := ctx.clean_expired now
  ((dictGet ctx'.entities t).getD [], ctx')

/-- `ConversationContext.get_last_intent` (context.py lines 165-173). -/
def ConversationContext.get_last_intent (ctx : ConversationContext) : Option RecentIntent :=
  ctx.recent_intents.getLast?

/-- `ConversationContext.get_entity_confidence` (context.py lines 219-243):
a missing timestamp defaults to 0; beyond the 600 s active window the
confidence decays by `0.1 * (elapsed / 600)`, floored at 0. -/
def ConversationContext.get_entity_confidence (ctx : ConversationContext) (e : Entity) (now : ℚ) : ℚ :=
  let ts := (dictGet ctx.entity_timestamps (entityKey e)).getD 0
  let elapsed := now - ts
  if elapsed > 600 then max 0 (e.confidence - (1/10) * (elapsed / 600))
  else e.confidence

/-- Key used by `EntityCache.get_team` / `get_competition`: a name-or-id
(`Union[str, int]`). -/
inductive NameOrId where
  | str (s : String)
  | int (n : Int)
deriving DecidableEq

/-- `EntityCache` state (cache.py lines 28-44).  `load_event_set` models
`asyncio.Event.is_set()`; `football_api` models whether an API client was
injected. -/
structure EntityCache where
  football_api : Bool := false
  teams : List (String × TeamData) := []
  teams_by_id : List (Int × TeamData) := []
  competitions : List (String × TeamData) := []
  competitions_by_id : List (Int × TeamData) := []
  load_event_set : Bool := true
deriving DecidableEq

/-- `EntityCache.__init__` (cache.py lines 28-44): note `load_event.set()`
is called immediately, so the readiness gate STARTS OPEN. -/
def EntityCache.initial (football_api : Bool) : EntityCache :=
  { football_api := football_api }

/-- The pure lookup performed by `EntityCache.get_team` (cache.py lines
55-73) once `load_event.wait()` has returned: by numeric id for an int or
all-digit string, else by exact name. -/
def EntityCache.get_team (c : EntityCache) (k : NameOrId) : Option TeamData :=
  match k with
  | .int n => dictGet c.teams_by_id n
  | .str s => if pyIsDigit s then dictGet c.teams_by_id (strToInt s) else dictGet c.teams s

/-- The pure lookup performed by `EntityCache.get_competition` (cache.py
lines 75-93). -/
def EntityCache.get_competition (c : EntityCache) (k : NameOrId) : Option TeamData :=
  match k with
  | .int n => dictGet c.competitions_by_id n
  | .str s => if pyIsDigit s then dictGet c.competitions_by_id (strToInt s) else dictGet c.competitions s

/-- `await self.load_event.wait()` returns without suspending exactly when
the event is set; a `get_team`/`get_competition` call completes immediately
against the current maps in that case. -/
def EntityCache.get_team_completes_now (c : EntityCache) : Bool := c.load_event_set

/-- Contents of one serialized cache file (cache.py lines 161-190): the two
indexes and the stored load timestamp. -/
structure CacheFile where
  byName : List (String × TeamData) := []
  byId : List (Int × TeamData) := []
  timestamp : ℚ := 0
deriving DecidableEq

/-- The remote data source seen by `_load_cache_from_api`: the competitions
response and the per-competition teams responses, each possibly failing. -/
structure ApiEnv where
  competitions : Except String (List TeamData)
  teamsFor : Int → Except String (List TeamData)

/-- `EntityCache._load_cache_from_disk` (cache.py lines 153-197), with the
two files and a possible read exception as explicit inputs.  Returns the
updated cache and the `cache_loaded` flag.  Note it never touches
`load_event_set`. -/
def EntityCache.load_cache_from_disk (c : EntityCache) (now : ℚ)
    (teamsFile compsFile : Option CacheFile) (readErr : Bool) : EntityCache × Bool :=
  if readErr then (c, false)
  else
    let step1 : EntityCache × Bool :=
      match teamsFile with
      | none => (c, false)
      | some f =>
        let c := { c with teams := f.byName, teams_by_id := f.byId }
        (c, decide (now - f.timestamp > 86400))
    if step1.2 then (step1.1, false)
    else
      let c := step1.1
      let step2 : EntityCache × Bool :=
        match compsFile with
        | none => (c, false)
        | some f =>
          let c := { c with competitions := f.byName, competitions_by_id := f.byId }
          (c, decide (now - f.timestamp > 86400))
      if step2.2 then (step2.1, false)
      else (step2.1, !step2.1.teams.isEmpty || !step2.1.competitions.isEmpty)

/-- Insert one fetched record into the name and id indexes when both its
name and id are truthy (cache.py lines 214-219 and 239-244). -/
def cacheInsert (byName : List (String × TeamData)) (byId : List (Int × TeamData))
    (rec : TeamData) : List (String × TeamData) × List (Int × TeamData) :=
  match rec.name, rec.id with
  | some n, some i =>
    if n != "" && i != 0 then (dictSet byName n rec, dictSet byId i rec)
    else (byName, byId)
  | _, _ => (byName, byId)

/-- `EntityCache._load_cache_from_api` (cache.py lines 199-266): clears the
gate, loads whatever succeeds (a failing per-competition teams fetch skips
only that competition; a failing competitions fetch aborts the body), and
the `finally` sets the gate again in every case. -/
def EntityCache.load_cache_from_api (c : EntityCache) (env : ApiEnv) : EntityCache :=
  if !c.football_api then c
  else
    let c := { c with load_event_set := false }
    let c :=
      match env.competitions with
      | .error _ => c
      | .ok comps =>
        let c := comps.foldl (fun (acc : EntityCache) r =>
          let p := cacheInsert acc.competitions acc.competitions_by_id r
          { acc with competitions := p.1, competitions_by_id := p.2 }) c
        ([2021, 2014, 2002, 2019, 2015] : List Int).foldl (fun (acc : EntityCache) cid =>
          match env.teamsFor cid with
          | .error _ => acc
          | .ok ts => ts.foldl (fun (acc2 : EntityCache) r =>
              let p := cacheInsert acc2.teams acc2.teams_by_id r
              { acc2 with teams := p.1, teams_by_id := p.2 }) acc) c
    { c with load_event_set := true }

/-- `EntityCache.initialize` (cache.py lines 46-53), named `initCache` here:
try the disk, then the API when the disk was not loaded and a client exists. -/
def EntityCache.initCache (c : EntityCache) (now : ℚ)
    (teamsFile compsFile : Option CacheFile) (readErr : Bool) (env : ApiEnv) : EntityCache :=
  let r := c.load_cache_from_disk now teamsFile compsFile readErr
  if !r.2 && r.1.football_api then r.1.load_cache_from_api env else r.1

/-- `ApiResource` (processor.py lines 19-38). -/
structure ApiResource where
  uri : String
  required_params : List String := []
  optional_params : List String := []
  description : String := ""
deriving DecidableEq

/-- The `intent_to_uri` table of `ApiResource.matches_intent` (processor.py
lines 50-59).  Note: there is NO entry for `get_match_head2head`. -/
def intent_to_uri : List (String × String) :=
  [ ("get_standings", "/standings"),
    ("get_matches", "/matches"),
    ("get_team", "/teams/"),
    ("get_team_matches", "/teams/{id}/matches"),
    ("get_competition", "/competitions/"),
    ("get_competition_matches", "/competitions/{id}/matches"),
    ("get_competition_teams", "/competitions/{id}/teams"),
    ("get_competition_scorers", "/competitions/{id}/scorers") ]

/-- `ApiResource.matches_intent` (processor.py lines 40-66). -/
def ApiResource.matches_intent (r : ApiResource) (intent_name : String) : Bool :=
  match dictGet intent_to_uri intent_name with
  | some pat => hasSegment r.uri.data pat.data
  | none => false

/-- The parameters dict built by `Intent.get_api_params` (processor.py lines
107-134).  `competition_id`/`team_id` hold `some v` when the key was written
with value `v` (which is itself an optional id, since `entity.id` may be
`None`). -/
structure ApiParams where
  competition_id : Option (Option Int) := none
  team_id : Option (Option Int) := none
  status : Option String := none
  date_from : Option Int := none
  date_to : Option Int := none
deriving DecidableEq

/-- `Intent` (processor.py lines 68-88). -/
structure Intent where
  name : String
  confidence : ℚ
  entities : List (String × Entity) := []
  api_resource : Option ApiResource := none
  api_params : ApiParams := {}
deriving DecidableEq

/-- The AttributeError message raised by a `.uri` access on a `None`
`api_resource`. -/
def attrErr : String := "AttributeError: NoneType object has no attribute uri"

/-- One iteration of the `Intent.get_api_params` loop (processor.py lines
112-131); accessing `self.api_resource.uri` with `api_resource = None`
raises. -/
def apiParamsStep (api_resource : Option ApiResource) (params : ApiParams) (e : Entity) :
    Except String ApiParams :=
  let step1 : Except String ApiParams :=
    if e.type = .competition then
      match api_resource with
      | none => .error attrErr
      | some r =>
        .ok (if hasSegment r.uri.data "{id}".data then { params with competition_id := some e.id }
             else params)
    else if e.type = .team then
      match api_resource with
      | none => .error attrErr
      | some r =>
        .ok (if hasSegment r.uri.data "{id}".data then { params with team_id := some e.id }
             else params)
    else if e.type = .status then .ok { params with status := some e.value }
    else .ok params
  match step1 with
  | .error err => .error err
  | .ok p =>
    .ok (if e.type = .timeframe then
           if e.metadata.date.isSome then
             { p with date_from := e.metadata.date, date_to := e.metadata.date }
           else if e.metadata.date_from.isSome && e.metadata.date_to.isSome then
             { p with date_from := e.metadata.date_from, date_to := e.metadata.date_to }
           else p
         else p)

/-- `Intent.get_api_params` (processor.py lines 107-134) over the bound
entity slots, in dict insertion order. -/
def Intent.get_api_params (entities : List (String × Entity)) (api_resource : Option ApiResource) :
    Except String ApiParams :=
  entities.foldl (fun acc p =>
    match acc with
    | .error err => .error err
    | .ok params => apiParamsStep api_resource params p.2) (.ok {})

/-- `IntentProcessor.API_RESOURCES` (processor.py lines 140-227), in dict
insertion order. -/
def API_RESOURCES : List (String × ApiResource) :=
  [ ("area",
     { uri := "/v4/areas/{id}", required_params := ["id"],
       description := "Information about a specific area (country/region)" }),
    ("areas",
     { uri := "/v4/areas/",
       description := "List of all available areas (countries/regions)" }),
    ("competition",
     { uri := "/v4/competitions/{id}", required_params := ["id"],
       description := "Information about a specific competition" }),
    ("competitions",
     { uri := "/v4/competitions/", optional_params := ["areas"],
       description := "List of all available competitions" }),
    ("competition_standings",
     { uri := "/v4/competitions/{id}/standings",
       required_params := ["id"], optional_params := ["matchday", "season", "date"],
       description := "Standings for a specific competition" }),
    ("competition_matches",
     { uri := "/v4/competitions/{id}/matches",
       required_params := ["id"],
       optional_params := ["dateFrom", "dateTo", "stage", "status", "matchday", "group", "season"],
       description := "Matches for a specific competition" }),
    ("competition_teams",
     { uri := "/v4/competitions/{id}/teams",
       required_params := ["id"], optional_params := ["season"],
       description := "Teams participating in a specific competition" }),
    ("competition_scorers",
     { uri := "/v4/competitions/{id}/scorers",
       required_params := ["id"], optional_params := ["limit", "season"],
       description := "Top scorers for a specific competition" }),
    ("team",
     { uri := "/v4/teams/{id}", required_params := ["id"],
       description := "Information about a specific team" }),
    ("teams",
     { uri := "/v4/teams/", optional_params := ["limit", "offset"],
       description := "List of teams" }),
    ("team_matches",
     { uri := "/v4/teams/{id}/matches/", required_params := ["id"],
       optional_params := ["dateFrom", "dateTo", "season", "competitions", "status", "venue", "limit"],
       description := "Matches for a specific team" }),
    ("person",
     { uri := "/v4/persons/{id}", required_params := ["id"],
       description := "Information about a specific person (player/coach)" }),
    ("person_matches",
     { uri := "/v4/persons/{id}/matches", required_params := ["id"],
       optional_params := ["dateFrom", "dateTo", "status", "competitions", "limit", "offset"],
       description := "Matches involving a specific person (player/coach)" }),
    ("match",
     { uri := "/v4/matches/{id}", required_params := ["id"],
       description := "Information about a specific match" }),
    ("matches",
     { uri := "/v4/matches",
       optional_params := ["competitions", "ids", "dateFrom", "dateTo", "status"],
       description := "List of matches across competitions" }),
    ("match_head2head",
     { uri := "/v4/matches/{id}/head2head", required_params := ["id"],
       optional_params := ["limit", "dateFrom", "dateTo", "competitions"],
       description := "Previous encounters between teams in a match" }) ]

/-- `IntentProcessor.INTENT_PATTERNS` (processor.py lines 230-248):
word-bounded alternations (quantifiers expanded greedily) and the proposed
intent names, in source order. -/
def INTENT_PATTERNS : List (List String × String) :=
  [ (["standing", "table", "position", "rank", "league table"], "get_standings"),
    (["matches", "match", "games", "game", "fixtures", "fixture", "schedule", "upcoming", "played"],
      "get_matches"),
    (["team", "club", "squad"], "get_team"),
    (["player", "squad", "roster", "lineup"], "get_team"),
    (["scorer", "goal scorer", "top scorer", "leading scorer", "golden boot"],
      "get_competition_scorers"),
    (["head to head", "h2h", "versus", "vs"], "get_match_head2head") ]

/-- The slot key `f"{entity.type.value}_{len(intent_entities)}"` of
processor.py line 403. -/
def slotKey (t : EntityType) (n : Nat) : String := t.value ++ "_" ++ Nat.repr n

/-- The dedup-and-bind loop of `_detect_intent` (processor.py lines 386-404):
per type, the first occurrence of a value wins. -/
def bindEntitiesAux (added : List (String × List String)) (ie : List (String × Entity)) :
    List Entity → List (String × Entity)
  | [] => ie
  | e :: rest =>
    let vals := (dictGet added e.type.value).getD []
    if e.value ∈ vals then bindEntitiesAux added ie rest
    else
      bindEntitiesAux (dictSet added e.type.value (e.value :: vals))
        (ie ++ [(slotKey e.type ie.length, e)]) rest

/-- Entry point of the dedup-and-bind loop. -/
def bindEntities (es : List Entity) : List (String × Entity) := bindEntitiesAux [] [] es

/-- The intent names that trigger competition backfill (processor.py line 409). -/
def compContextIntents : List String :=
  ["get_standings", "get_competition_matches", "get_competition_teams", "get_competition_scorers"]

/-- The contextual-entity backfill of `_detect_intent` (processor.py lines
406-425).  The guard tests the LITERAL slot keys `"competition"` and
`"team"`; the sort of the context list happens in place in the source, so
the sorted list is written back into the context. -/
def addContextEntities (now : ℚ) (intent_name : String) (res : ApiResource)
    (ie : List (String × Entity)) (ctx : ConversationContext) :
    List (String × Entity) × ConversationContext :=
  if hasSegment res.uri.data "{id}".data && (dictGet ie "competition").isNone &&
      (dictGet ie "team").isNone then
    if intent_name ∈ compContextIntents then
      let r := ctx.get_entities_by_type now .competition
      match pythonSortDesc (fun e => r.2.get_entity_confidence e now) r.1 with
      | [] => (ie, r.2)
      | best :: rest =>
        (dictSet ie "competition_context" best,
         { r.2 with entities := dictSet r.2.entities .competition (best :: rest) })
    else if intent_name = "get_team_matches" then
      let r := ctx.get_entities_by_type now .team
      match pythonSortDesc (fun e => r.2.get_entity_confidence e now) r.1 with
      | [] => (ie, r.2)
      | best :: rest =>
        (dictSet ie "team_context" best,
         { r.2 with entities := dictSet r.2.entities .team (best :: rest) })
    else (ie, ctx)
  else (ie, ctx)

/-- The entity-based inference of `_detect_intent` (processor.py lines
339-358), reached only when no lexical rule fired. -/
def inferIntentsFromEntities (ml : List Char) (entities : List Entity) : List (String × ℚ) :=
  if entities.any (fun e => decide (e.type = .competition)) then
    if entities.any (fun e => decide (e.type = .team)) then [("get_competition_teams", 6/10)]
    else if hasSegment ml "standing".data || hasSegment ml "table".data then
      [("get_standings", 7/10)]
    else [("get_competition", 6/10), ("get_standings", 5/10)]
  else if entities.any (fun e => decide (e.type = .team)) then
    [("get_team_matches", 6/10), ("get_team", 5/10)]
  else if entities.any (fun e => decide (e.type = .timeframe)) then [("get_matches", 6/10)]
  else []

/-- `IntentProcessor._detect_intent` (processor.py lines 312-448), named
`detect_intent` here.  The unconditional `intent.api_resource.uri` access at
line 407 raises when no resource matched the intent name. -/
def detect_intent (now : ℚ) (message : String) (entities : List Entity)
    (ctx : ConversationContext) : Except String (Option Intent × ConversationContext) :=
  let ml := toLowerStr message
  let matched_intents : List (String × ℚ) :=
    (if hasSegment ml "standings".data || hasSegment ml "table".data then
       [("get_standings", 8/10)]
     else []) ++
    INTENT_PATTERNS.filterMap (fun p =>
      if reSearch p.1 ml then some (p.2, (7/10 : ℚ)) else none)
  let matched_intents :=
    if matched_intents.isEmpty then inferIntentsFromEntities ml entities else matched_intents
  let matched_intents :=
    if matched_intents.isEmpty then
      match ctx.get_last_intent with
      | some li => [(li.name, (4/10 : ℚ))]
      | none => []
    else matched_intents
  match pythonSortDesc (fun p => p.2) matched_intents with
  | [] => .ok (none, ctx)
  | (intent_name, base_confidence) :: _ =>
    let api_resource := (API_RESOURCES.find? (fun p => p.2.matches_intent intent_name)).map (·.2)
    let ie := bindEntities entities
    match api_resource with
    | none => .error attrErr
    | some res =>
      let r := addContextEntities now intent_name res ie ctx
      match Intent.get_api_params r.1 (some res) with
      | .error err => .error err
      | .ok params =>
        let required := res.required_params
        let required :=
          if required.contains "id" && (params.competition_id.isSome || params.team_id.isSome)
          then required.erase "id" else required
        let confidence :=
          if required.isEmpty then base_confidence else base_confidence * (1/2)
        .ok (some { name := intent_name, confidence := confidence, entities := r.1,
                    api_resource := some res, api_params := params }, r.2)

/-- `IntentProcessor` state (processor.py lines 250-261). -/
structure IntentProcessor where
  entity_extractor : EntityExtractor
  contexts : List (String × ConversationContext) := []
deriving DecidableEq

/-- `IntentProcessor.get_or_create_context` (processor.py lines 263-274). -/
def IntentProcessor.get_or_create_context (proc : IntentProcessor) (now : ℚ) (user_id : String) :
    ConversationContext × IntentProcessor :=
  match dictGet proc.contexts user_id with
  | some c => (c, proc)
  | none =>
    let c := ConversationContext.create user_id now
    (c, { proc with contexts := dictSet proc.contexts user_id c })

/-- `IntentProcessor.process_message` (processor.py lines 276-310): extract,
merge into context, detect; a successfully detected intent is recorded into
the context.  An exception inside `_detect_intent` propagates to the caller
as `.error`. -/
def IntentProcessor.process_message (proc : IntentProcessor) (today : Int) (now : ℚ)
    (user_id message : String) : Except String (Option Intent × IntentProcessor) :=
  let r0 := proc.get_or_create_context now user_id
  let proc := r0.2
  let entities := proc.entity_extractor.extract_entities today message
  let ctx := if entities.isEmpty then r0.1 else r0.1.add_entities now entities
  match detect_intent now message entities ctx with
  | .error e => .error e
  | .ok (none, ctx) =>
    .ok (none, { proc with contexts := dictSet proc.contexts user_id ctx })
  | .ok (some intent, ctx) =>
    let ctx := ctx.add_intent now intent.name intent.confidence intent.entities
    .ok (some intent, { proc with contexts := dictSet proc.contexts user_id ctx })

/-- Refinement target for the dedup rule, following the wording of the spec: within
a type, the first occurrence of a given value wins and later duplicates of
the same value are dropped (`seen` holds the (type value, value) pairs
already bound). -/
def dedupFirstWins (seen : List (String × String)) : List Entity → List Entity
  | [] => []
  | e :: rest =>
    if (e.type.value, e.value) ∈ seen then dedupFirstWins seen rest
    else e :: dedupFirstWins ((e.type.value, e.value) :: seen) rest

/-- A processor over a fresh extractor with no team table, as in the end-to-end
scenarios of the spec. -/
def freshProcessor : IntentProcessor := { entity_extractor := EntityExtractor.create [] }

/-- The end-to-end run of spec scenario 1: a fresh user context and the
message "Show me the Premier League standings" (day 0, time 0). -/
def c4run : Except String (Option Intent × IntentProcessor) :=
  freshProcessor.process_message 0 0 "user1" "Show me the Premier League standings"

/-- The intent returned by the scenario-1 run. -/
def c4intent : Option Intent :=
  match c4run with
  | .ok (i, _) => i
  | .error _ => none

/-- The run of the message "vs", whose only matched intent is
`get_match_head2head`. -/
def c1run : Except String (Option Intent × IntentProcessor) :=
  freshProcessor.process_message 0 0 "user1" "vs"

/-- The run of a message mentioning "Premier League" twice. -/
def c8run : Except String (Option Intent × IntentProcessor) :=
  freshProcessor.process_message 0 0 "user1" "Premier League standings Premier League"

/-- The entity slots bound into the intent of the twice-mentioning run. -/
def c8slots : List (String × Entity) :=
  match c8run with
  | .ok (some i, _) => i.entities
  | _ => []

/-- The Premier League competition entity as extracted from
"Show me the Premier League standings". -/
def plEnt : Entity :=
  { type := .competition, value := "Premier League", id := some 2021,
    confidence := 9/10, start := 12, stop := 26 }

/-- A context holding the Premier League entity of the current turn. -/
def c3ctx : ConversationContext :=
  (ConversationContext.create "user1" 0).add_entities 0 [plEnt]

/-- The `competition_standings` API resource. -/
def c3res : ApiResource := (dictGet API_RESOURCES "competition_standings").getD { uri := "" }

/-- First add: Premier League with confidence 0.9. -/
def c6e1 : Entity :=
  { type := .competition, value := "Premier League", id := some 2021,
    confidence := 9/10, start := 0, stop := 14 }

/-- Second add: same competition, case-insensitively equal value and equal
id, lower confidence. -/
def c6e2 : Entity :=
  { type := .competition, value := "PREMIER LEAGUE", id := some 2021,
    confidence := 8/10, start := 3, stop := 17 }

/-- A context with `c6e1` already stored (added at time 0). -/
def c6ctx : ConversationContext :=
  (ConversationContext.create "user2" 0).add_entities 0 [c6e1]

/-- A context with `plEnt` recorded at time 5. -/
def c5ctx : ConversationContext :=
  (ConversationContext.create "user3" 0).add_entities 5 [plEnt]

/-- A fresh context: its `entity_timestamps` map is empty. -/
def c10ctx : ConversationContext := ConversationContext.create "user4" 0

/-- A remote data source for the cache: one competition, and Arsenal among
the teams of competition 2021. -/
def c2env : ApiEnv :=
  { competitions := .ok [{ name := some "Premier League", id := some 2021 }],
    teamsFor := fun cid =>
      if cid = 2021 then .ok [{ name := some "Arsenal", id := some 57 }] else .ok [] }

/-- A populated entity cache for the lookup claims. -/
def c9cache : EntityCache :=
  { teams := [("Arsenal", { name := some "Arsenal", id := some 57 })],
    teams_by_id := [(57, { name := some "Arsenal", id := some 57 })],
    competitions := [("Premier League", { name := some "Premier League", id := some 2021 })],
    competitions_by_id := [(2021, { name := some "Premier League", id := some 2021 })] }

set_option maxRecDepth 100000

/-! Helper lemmas about the dict, sort, and list operations. -/

theorem dictGet_dictSet_self {κ α : Type} [DecidableEq κ] (d : List (κ × α)) (k : κ) (v : α) :
    dictGet (dictSet d k v) k = some v := by
  induction d with
  | nil => simp [dictSet, dictGet]
  | cons p rest ih =>
    obtain ⟨a, b⟩ := p
    simp only [dictSet]
    split_ifs with h
    · simp [dictGet, h]
    · simp [dictGet, h, ih]

theorem dictGet_cons {κ α : Type} [DecidableEq κ] (a : κ) (b : α) (d : List (κ × α)) (k : κ) :
    dictGet ((a, b) :: d) k = if a = k then some b else dictGet d k := rfl

theorem dictGet_dictSet {κ α : Type} [DecidableEq κ] (d : List (κ × α)) (k k' : κ) (v : α) :
    dictGet (dictSet d k v) k' = if k = k' then some v else dictGet d k' := by
  induction d with
  | nil => simp [dictSet, dictGet]
  | cons p rest ih =>
    obtain ⟨a, b⟩ := p
    by_cases h : a = k
    · subst h
      rw [show dictSet ((a, b) :: rest) a v = (a, v) :: rest from by simp [dictSet]]
      rw [dictGet_cons, dictGet_cons]
      split_ifs <;> simp_all
    · rw [show dictSet ((a, b) :: rest) k v = (a, b) :: dictSet rest k v from by simp [dictSet, h]]
      rw [dictGet_cons, dictGet_cons, ih]
      split_ifs <;> simp_all

theorem dictGet_eq_none {κ α : Type} [DecidableEq κ] (d : List (κ × α)) (k : κ)
    (h : ∀ p ∈ d, p.1 ≠ k) : dictGet d k = none := by
  induction d with
  | nil => rfl
  | cons p rest ih =>
    obtain ⟨a, b⟩ := p
    simp only [dictGet]
    rw [if_neg (h (a, b) (List.mem_cons_self (a, b) rest))]
    exact ih (fun q hq => h q (List.mem_cons_of_mem (a, b) hq))

theorem mem_dictSet_self {κ α : Type} [DecidableEq κ] (d : List (κ × α)) (k : κ) (v : α) :
    (k, v) ∈ dictSet d k v := by
  induction d with
  | nil => simp [dictSet]
  | cons p rest ih =>
    obtain ⟨a, b⟩ := p
    simp only [dictSet]
    split_ifs with h
    · exact h ▸ List.mem_cons_self (a, v) rest
    · exact List.mem_cons_of_mem (a, b) ih

theorem pythonSortDesc_perm {α β : Type} [LinearOrder β] (key : α → β) (l : List α) :
    List.Perm (pythonSortDesc key l) l :=
  @List.perm_insertionSort α (fun a b => key b ≤ key a)
    (fun a b => inferInstanceAs (Decidable (key b ≤ key a))) l

theorem pythonSortDesc_head_max {α β : Type} [LinearOrder β] (key : α → β) (l : List α)
    (best : α) (rest : List α) (h : pythonSortDesc key l = best :: rest) :
    best ∈ l ∧ ∀ x ∈ l, key x ≤ key best := by
  have hperm := pythonSortDesc_perm key l
  have hsorted : List.Sorted (fun a b => key b ≤ key a) (pythonSortDesc key l) := by
    haveI : IsTotal α (fun a b => key b ≤ key a) := ⟨fun a b => le_total (key b) (key a)⟩
    haveI : IsTrans α (fun a b => key b ≤ key a) := ⟨fun a b c h1 h2 => le_trans h2 h1⟩
    exact @List.sorted_insertionSort α (fun a b => key b ≤ key a)
      (fun a b => inferInstanceAs (Decidable (key b ≤ key a))) _ _ l
  rw [h] at hperm hsorted
  constructor
  · exact hperm.mem_iff.mp (List.mem_cons_self best rest)
  · intro x hx
    rcases List.mem_cons.mp (hperm.mem_iff.mpr hx) with hx2 | hx2
    · exact le_of_eq (congrArg key hx2)
    · exact List.rel_of_sorted_cons hsorted x hx2

/-! Helper lemmas about `updateList` (the merge step of `add_entities`). -/

theorem updateList_no_match (e : Entity) (l : List Entity)
    (h : ∀ x ∈ l, entityMatches e x = false) : updateList e l = l ++ [e] := by
  induction l with
  | nil => rfl
  | cons x xs ih =>
    rw [updateList, if_neg (by simp [h x (List.mem_cons_self x xs)])]
    rw [ih (fun y hy => h y (List.mem_cons_of_mem x hy))]
    rfl

theorem updateList_first_match (e x : Entity) (l1 l2 : List Entity)
    (h1 : ∀ y ∈ l1, entityMatches e y = false) (hx : entityMatches e x = true) :
    updateList e (l1 ++ x :: l2) = l1 ++ updatedEntity x e :: l2 := by
  induction l1 with
  | nil => simp [updateList, hx]
  | cons y ys ih =>
    rw [List.cons_append, updateList,
      if_neg (by simp [h1 y (List.mem_cons_self y ys)])]
    rw [ih (fun z hz => h1 z (List.mem_cons_of_mem y hz))]
    rfl

theorem updateList_length_of_match (e : Entity) (l : List Entity)
    (h : ∃ x ∈ l, entityMatches e x = true) : (updateList e l).length = l.length := by
  induction l with
  | nil => simp at h
  | cons x xs ih =>
    by_cases hx : entityMatches e x = true
    · rw [updateList, if_pos hx]
      rfl
    · rw [updateList, if_neg hx]
      rcases h with ⟨y, hy, hmy⟩
      rcases List.mem_cons.mp hy with rfl | hy2
      · exact absurd hmy hx
      · simp [ih ⟨y, hy2, hmy⟩]

/-! Helper lemmas about `add_entities` state updates. -/

theorem add_entities_singleton (ctx : ConversationContext) (now : ℚ) (e : Entity) :
    ctx.add_entities now [e] =
      { ctx with
        last_active := now,
        entities := dictSet ctx.entities e.type (updateList e ((dictGet ctx.entities e.type).getD [])),
        entity_timestamps := dictSet ctx.entity_timestamps (entityKey e) now } := rfl

theorem add_entities_last_active (ctx : ConversationContext) (now : ℚ) (es : List Entity) :
    (ctx.add_entities now es).last_active = now := by
  have main : ∀ (l : List Entity) (c : ConversationContext),
      (l.foldl (addOneEntity now) c).last_active = c.last_active := by
    intro l
    induction l with
    | nil => intro c; rfl
    | cons x xs ih => intro c; rw [List.foldl_cons, ih]; rfl
  exact main es { ctx with last_active := now }

/-! Helper lemmas about the dedup-and-bind step and its slot keys. -/

theorem slotKey_ne_of_no_underscore (t : EntityType) (n : Nat) (target : String)
    (h : '_' ∉ target.data) : slotKey t n ≠ target := by
  intro he
  apply h
  rw [← he]
  show '_' ∈ (t.value ++ "_" ++ Nat.repr n).data
  rw [String.data_append, String.data_append]
  simp

theorem bindEntitiesAux_keys (es : List Entity) :
    ∀ (added : List (String × List String)) (ie : List (String × Entity)),
      (∀ p ∈ ie, ∃ t n, (p : String × Entity).1 = slotKey t n) →
      ∀ p ∈ bindEntitiesAux added ie es, ∃ t n, (p : String × Entity).1 = slotKey t n := by
  induction es with
  | nil => intro added ie h p hp; exact h p hp
  | cons e rest ih =>
    intro added ie h p hp
    rw [bindEntitiesAux] at hp
    split at hp
    · exact ih _ _ h p hp
    · refine ih _ _ ?_ p hp
      intro q hq
      rcases List.mem_append.mp hq with hq2 | hq2
      · exact h q hq2
      · rcases List.mem_singleton.mp hq2 with rfl
        exact ⟨e.type, ie.length, rfl⟩

theorem bindEntities_reserved_none (es : List Entity) :
    dictGet (bindEntities es) "competition" = none ∧ dictGet (bindEntities es) "team" = none := by
  have hkeys := bindEntitiesAux_keys es [] [] (by intro p hp; simp at hp)
  constructor
  · refine dictGet_eq_none _ _ (fun p hp => ?_)
    rcases hkeys p hp with ⟨t, n, he⟩
    rw [he]
    exact slotKey_ne_of_no_underscore t n "competition" (by decide)
  · refine dictGet_eq_none _ _ (fun p hp => ?_)
    rcases hkeys p hp with ⟨t, n, he⟩
    rw [he]
    exact slotKey_ne_of_no_underscore t n "team" (by decide)

theorem bindEntitiesAux_map_snd (es : List Entity) :
    ∀ (added : List (String × List String)) (seen : List (String × String))
      (ie : List (String × Entity)),
      (∀ t v, v ∈ (dictGet added t).getD [] ↔ (t, v) ∈ seen) →
      (bindEntitiesAux added ie es).map Prod.snd = ie.map Prod.snd ++ dedupFirstWins seen es := by
  induction es with
  | nil => intro added seen ie h; simp [bindEntitiesAux, dedupFirstWins]
  | cons e rest ih =>
    intro added seen ie h
    rw [bindEntitiesAux, dedupFirstWins]
    by_cases hmem : e.value ∈ (dictGet added e.type.value).getD []
    · rw [if_pos hmem, if_pos ((h e.type.value e.value).mp hmem)]
      exact ih added seen ie h
    · rw [if_neg hmem, if_neg (fun hc => hmem ((h e.type.value e.value).mpr hc))]
      rw [ih (dictSet added e.type.value (e.value :: (dictGet added e.type.value).getD []))
            ((e.type.value, e.value) :: seen) _ ?_]
      · simp
      · intro t v
        rw [dictGet_dictSet]
        by_cases ht : e.type.value = t
        · rw [if_pos ht, Option.getD_some]
          subst ht
          constructor
          · intro hv
            rcases List.mem_cons.mp hv with rfl | hv2
            · exact List.mem_cons_self _ _
            · exact List.mem_cons_of_mem _ ((h e.type.value v).mp hv2)
          · intro hv
            rcases List.mem_cons.mp hv with heq | hv2
            · rw [Prod.mk.injEq] at heq
              rw [heq.2]
              exact List.mem_cons_self _ _
            · exact List.mem_cons_of_mem _ ((h e.type.value v).mpr hv2)
        · rw [if_neg ht, h t v]
          constructor
          · exact fun hv => List.mem_cons_of_mem _ hv
          · intro hv
            rcases List.mem_cons.mp hv with heq | hv2
            · rw [Prod.mk.injEq] at heq
              exact absurd heq.1.symm ht
            · exact hv2

theorem bindEntities_map_snd (es : List Entity) :
    (bindEntities es).map Prod.snd = dedupFirstWins [] es := by
  have := bindEntitiesAux_map_snd es [] [] [] (by intro t v; simp [dictGet])
  simpa using this

theorem dedupFirstWins_avoid (es : List Entity) :
    ∀ (seen : List (String × String)) (x : Entity), x ∈ dedupFirstWins seen es →
      (x.type.value, x.value) ∉ seen := by
  induction es with
  | nil => intro seen x hx; simp [dedupFirstWins] at hx
  | cons e rest ih =>
    intro seen x hx
    rw [dedupFirstWins] at hx
    split at hx
    · exact ih seen x hx
    · rcases List.mem_cons.mp hx with rfl | hx2
      · assumption
      · intro hc
        exact ih _ x hx2 (List.mem_cons_of_mem _ hc)

theorem dedupFirstWins_pairwise (es : List Entity) :
    ∀ seen : List (String × String),
      (dedupFirstWins seen es).Pairwise
        (fun a b => ¬(a.type = b.type ∧ a.value = b.value)) := by
  induction es with
  | nil => intro seen; simp [dedupFirstWins]
  | cons e rest ih =>
    intro seen
    rw [dedupFirstWins]
    split
    · exact ih seen
    · refine List.Pairwise.cons ?_ (ih _)
      intro b hb hc
      have := dedupFirstWins_avoid rest _ b hb
      exact this (by rw [← congrArg EntityType.value hc.1, ← hc.2]; exact List.mem_cons_self _ _)

/-! Helper lemma: everything surviving a read-time prune is active. -/

theorem mem_clean_is_active (ctx : ConversationContext) (now : ℚ) (t : EntityType) (e : Entity)
    (h : e ∈ (dictGet (ctx.clean_expired now).entities t).getD []) :
    ctx.is_entity_active e now = true := by
  have main : ∀ d : List (EntityType × List Entity),
      e ∈ ((dictGet ((d.map (fun q => (q.1, q.2.filter (fun x => ctx.is_entity_active x now)))).filter
        (fun q => !q.2.isEmpty)) t).getD []) → ctx.is_entity_active e now = true := by
    intro d
    induction d with
    | nil => intro hm; simp [dictGet] at hm
    | cons q rest ih =>
      intro hm
      rw [List.map_cons, List.filter_cons] at hm
      by_cases hq : (!(q.2.filter (fun x => ctx.is_entity_active x now)).isEmpty) = true
      · rw [if_pos hq, dictGet_cons] at hm
        by_cases hqt : q.1 = t
        · rw [if_pos hqt] at hm
          simp only [Option.getD_some] at hm
          exact (List.mem_filter.mp hm).2
        · rw [if_neg hqt] at hm
          exact ih hm
      · rw [if_neg hq] at hm
        exact ih hm
  exact main ctx.entities h

/-! The claims. -/

/-- C1: the spec claims `process_message` never raises.  The code violates
this: for the message "vs" the only matched intent is `get_match_head2head`,
which has no entry in `intent_to_uri`, so no API resource matches, and the
unconditional `intent.api_resource.uri` access at processor.py line 407
raises AttributeError, which propagates out of `process_message`.  This
theorem evaluates the embedded code at that failing input. -/
theorem claim_C1 :
    exceptError c1run = some attrErr ∧
    reSearch ["head to head", "h2h", "versus", "vs"] (toLowerStr "vs") = true ∧
    (API_RESOURCES.find? (fun p => p.2.matches_intent "get_match_head2head")) = none := by
  with_unfolding_all decide

/-- C4: end-to-end scenario 1.  On a fresh context,
"Show me the Premier League standings" yields `get_standings` with
confidence 0.8 and `api_params["competition_id"] = 2021`, the Premier League
entity having been extracted with id 2021 and confidence 0.9. -/
theorem claim_C4 :
    c4intent.isSome = true ∧
    c4intent.map Intent.name = some "get_standings" ∧
    (8/10 : ℚ) ≤ (c4intent.map Intent.confidence).getD 0 ∧
    c4intent.map (fun i => i.api_params.competition_id) = some (some (some 2021)) ∧
    ((EntityExtractor.create []).extract_entities 0 "Show me the Premier League standings").any
      (fun e => decide (e.type = EntityType.competition ∧ e.value = "Premier League" ∧
        e.id = some 2021 ∧ e.confidence = 9/10)) = true := by
  with_unfolding_all decide

/-- C8 counterexample: a message mentioning "Premier League" twice binds TWO
Competition-typed entity slots into the resulting intent (the deduplicated
current-turn slot `competition_0` plus the contextual backfill slot
`competition_context`), not exactly one as claimed. -/
theorem claim_C8_counterexample :
    ((EntityExtractor.create []).extract_entities 0
        "Premier League standings Premier League").countP
      (fun e => decide (e.type = EntityType.competition ∧ e.value = "Premier League")) = 2 ∧
    c8slots.countP (fun p => decide (p.2.type = EntityType.competition)) = 2 ∧
    c8slots.countP (fun p => decide (p.2.type = EntityType.competition)) ≠ 1 := by
  with_unfolding_all decide

/-- C8 (amended): the current-turn dedup binds exactly one entity per
(type, value) pair, the first occurrence winning — the bound slots are
exactly the first-occurrence dedup of the extracted entities — but the
contextual backfill may bind one more Competition entity under
`competition_context`, so the twice-mentioning message carries two
Competition-typed slots. -/
theorem claim_C8 :
    (∀ es : List Entity, (bindEntities es).map Prod.snd = dedupFirstWins [] es) ∧
    (∀ es : List Entity,
      (dedupFirstWins [] es).Pairwise (fun a b => ¬(a.type = b.type ∧ a.value = b.value))) ∧
    c8slots.map Prod.fst = ["competition_0", "competition_context"] ∧
    c8slots.countP (fun p => decide (p.2.type = EntityType.competition)) = 2 := by
  refine ⟨bindEntities_map_snd, fun es => dedupFirstWins_pairwise es [], ?_, ?_⟩ <;>
    with_unfolding_all decide

/-- C3 counterexample: in the scenario-1 run the current turn extracts a
Competition entity, yet the intent slots contain a `competition_context`
backfill entry — contradicting the claim that no contextual backfill entity
is added when a current-turn Competition entity is present. -/
theorem claim_C3_counterexample :
    ((EntityExtractor.create []).extract_entities 0 "Show me the Premier League standings").any
      (fun e => decide (e.type = EntityType.competition)) = true ∧
    c4intent.map (fun i => i.entities.map Prod.fst) =
      some ["competition_0", "competition_context"] := by
  with_unfolding_all decide

/-- Disk loading never touches the readiness gate or the api-client field. -/
theorem load_cache_from_disk_gate (c : EntityCache) (now : ℚ)
    (tf cf : Option CacheFile) (err : Bool) :
    ((c.load_cache_from_disk now tf cf err).1).load_event_set = c.load_event_set ∧
    ((c.load_cache_from_disk now tf cf err).1).football_api = c.football_api := by
  unfold EntityCache.load_cache_from_disk
  rcases err with _ | _ <;> rcases tf with _ | f1 <;> rcases cf with _ | f2 <;> dsimp only <;>
    first
      | exact ⟨rfl, rfl⟩
      | (split_ifs <;> exact ⟨rfl, rfl⟩)

/-- An API load on a cache that has an api client always ends with the gate
set (the `finally`). -/
theorem load_cache_from_api_gate (c : EntityCache) (env : ApiEnv)
    (h : c.football_api = true) : (c.load_cache_from_api env).load_event_set = true := by
  rw [EntityCache.load_cache_from_api, h]
  rcases env.competitions with e | comps <;> rfl

/-- C2 (amended): the readiness gate starts OPEN at construction (the source
calls `load_event.set()` in `__init__`), so a `get_team` issued before
`initialize` completes immediately against the current (empty) maps and
returns "not found"; the gate is closed only for the duration of an API
load, and `initialize` leaves it open at its end on success and failure
alike. -/
theorem claim_C2 (api : Bool) (now : ℚ) (tf cf : Option CacheFile) (err : Bool) (env : ApiEnv) :
    (EntityCache.initial api).load_event_set = true ∧
    (EntityCache.initial api).get_team_completes_now = true ∧
    (∀ k, (EntityCache.initial api).get_team k = none) ∧
    ((EntityCache.initial api).initCache now tf cf err env).load_event_set = true := by
  refine ⟨rfl, rfl, ?_, ?_⟩
  · intro k
    rcases k with s | n
    · rw [EntityCache.get_team]
      split_ifs <;> rfl
    · rfl
  · rw [EntityCache.initCache]
    have hd := load_cache_from_disk_gate (EntityCache.initial api) now tf cf err
    split_ifs with h
    · refine load_cache_from_api_gate _ env ?_
      simp only [Bool.and_eq_true] at h
      exact h.2
    · rw [hd.1]
      rfl

/-- C2 counterexample: at construction the gate is open (the claim says it
is closed until `initialize` completes), and a `get_team "Arsenal"` issued
on the freshly constructed cache completes immediately with `none`, while
the post-initialization lookup finds Arsenal — a premature "not found". -/
theorem claim_C2_counterexample :
    (EntityCache.initial true).get_team_completes_now = true ∧
    (EntityCache.initial true).get_team (.str "Arsenal") = none ∧
    ((EntityCache.initial true).initCache 0 none none false c2env).get_team (.str "Arsenal") =
      some { name := some "Arsenal", id := some 57 } := by
  with_unfolding_all decide

/-- C9: `get_team`/`get_competition` resolve an all-digit string through the
numeric id index, agreeing with the int lookup; a non-digit string resolves
by exact name; a miss in either index yields `none` (the functions are
total — "not found" is a value, never an error). -/
theorem claim_C9 (c : EntityCache) :
    (∀ s : String, pyIsDigit s = true →
      c.get_team (.str s) = c.get_team (.int (strToInt s)) ∧
      c.get_competition (.str s) = c.get_competition (.int (strToInt s))) ∧
    (∀ s : String, pyIsDigit s = false →
      c.get_team (.str s) = dictGet c.teams s ∧
      c.get_competition (.str s) = dictGet c.competitions s) ∧
    (∀ n : Int, dictGet c.teams_by_id n = none → c.get_team (.int n) = none) ∧
    (∀ s : String, pyIsDigit s = false → dictGet c.teams s = none →
      c.get_team (.str s) = none) := by
  refine ⟨?_, ?_, ?_, ?_⟩
  · intro s h
    constructor
    · simp [EntityCache.get_team, h]
    · simp [EntityCache.get_competition, h]
  · intro s h
    constructor
    · simp [EntityCache.get_team, h]
    · simp [EntityCache.get_competition, h]
  · intro n h
    simpa [EntityCache.get_team] using h
  · intro s h1 h2
    simp [EntityCache.get_team, h1, h2]

/-- C9 witness: the digit-string/int agreement and the name lookup at the
concrete cache, with the hypotheses discharged by evaluation. -/
theorem claim_C9_witness :
    (c9cache.get_team (.str "57") = c9cache.get_team (.int (strToInt "57")) ∧
      c9cache.get_competition (.str "57") = c9cache.get_competition (.int (strToInt "57"))) ∧
    c9cache.get_team (.int 57) = some { name := some "Arsenal", id := some 57 } ∧
    c9cache.get_team (.str "Gotham FC") = none :=
  ⟨(claim_C9 c9cache).1 "57" (by decide),
   by decide,
   (claim_C9 c9cache).2.2.2 "Gotham FC" (by decide) (by decide)⟩

/-- C7 (corrected/amended): extracting "this weekend" yields a Timeframe
entity whose `date_from` is the Saturday computed by the source — a Saturday
(weekday 5) that is today or later and at most 6 days away — and whose
`date_to` is the following Sunday.  Extracting "next weekend" advances a
full week ONLY when today is a Saturday (then its Saturday is exactly 7 days
out); on every other weekday its Saturday coincides with the
"this weekend" Saturday, so it is strictly later than today but can be as
little as 1 day out, never more than 7. -/
theorem claim_C7 (today : Int) :
    (EntityExtractor.create []).extract_entities today "this weekend" =
      [{ type := .timeframe, value := "weekend", id := none, confidence := 9/10,
         start := 0, stop := 12,
         metadata := { date_from := some (weekendSaturday today),
                       date_to := some (weekendSaturday today + 1) } }] ∧
    pyWeekday (weekendSaturday today) = 5 ∧
    today ≤ weekendSaturday today ∧
    weekendSaturday today ≤ today + 6 ∧
    (EntityExtractor.create []).extract_entities today "next weekend" =
      [{ type := .timeframe, value := "next_weekend", id := none, confidence := 9/10,
         start := 0, stop := 12,
         metadata := { date_from := some (nextWeekendSaturday today),
                       date_to := some (nextWeekendSaturday today + 1) } }] ∧
    (today < nextWeekendSaturday today ∧
      (pyWeekday today = 5 → nextWeekendSaturday today = today + 7) ∧
      (pyWeekday today ≠ 5 → nextWeekendSaturday today = weekendSaturday today) ∧
      nextWeekendSaturday today ≤ today + 7) := by
  refine ⟨by with_unfolding_all rfl, ?_, ?_, ?_, by with_unfolding_all rfl, ?_⟩
  · simp only [weekendSaturday, pyWeekday]
    omega
  · simp only [weekendSaturday, pyWeekday]
    omega
  · simp only [weekendSaturday, pyWeekday]
    omega
  · simp only [nextWeekendSaturday, weekendSaturday, pyWeekday]
    refine ⟨?_, ?_, ?_, ?_⟩
    · split <;> omega
    · intro h
      rw [h]
      norm_num
    · intro h
      split <;> omega
    · split <;> omega

/-- C7 witness: day 12 is a Saturday, so "next weekend" advances a full
week; day 4 is a Friday, so "next weekend" coincides with "this weekend". -/
theorem claim_C7_witness :
    (pyWeekday 12 = 5 ∧ nextWeekendSaturday 12 = 12 + 7) ∧
    (pyWeekday 4 ≠ 5 ∧ nextWeekendSaturday 4 = weekendSaturday 4) :=
  ⟨⟨by decide, (claim_C7 12).2.2.2.2.2.2.1 (by decide)⟩,
   ⟨by decide, (claim_C7 4).2.2.2.2.2.2.2.1 (by decide)⟩⟩

/-- C7 counterexample: on a Friday (day 4, with day 0 a Monday) the Saturday
of "next weekend" is 1 day away — strictly less than a full week — both in
the arithmetic and in the extracted Timeframe metadata, refuting the claim
that extraction of "next weekend" always advances at least one full week. -/
theorem claim_C7_counterexample :
    pyWeekday 4 = 4 ∧
    nextWeekendSaturday 4 = 4 + 1 ∧
    ¬(4 + 7 ≤ nextWeekendSaturday 4) ∧
    ((EntityExtractor.create []).extract_entities 4 "next weekend").map
      (fun e => e.metadata.date_from) = [some 5] := by
  with_unfolding_all decide

/-- C5: for an entity whose timestamp is recorded, `get_entity_confidence`
returns the stored confidence unchanged within the 600 s active window, and
`max 0 (c - 0.1 * (elapsed / 600))` beyond it; the result always lies in
`[0, c]` and is non-increasing as elapsed time grows. -/
theorem claim_C5 (ctx : ConversationContext) (e : Entity) (now t : ℚ)
    (hts : dictGet ctx.entity_timestamps (entityKey e) = some t)
    (h0 : 0 ≤ e.confidence) (_hub : e.confidence ≤ 1) :
    (now - t ≤ 600 → ctx.get_entity_confidence e now = e.confidence) ∧
    (600 < now - t →
      ctx.get_entity_confidence e now = max 0 (e.confidence - (1/10) * ((now - t) / 600))) ∧
    0 ≤ ctx.get_entity_confidence e now ∧
    ctx.get_entity_confidence e now ≤ e.confidence ∧
    (∀ now2 : ℚ, now ≤ now2 →
      ctx.get_entity_confidence e now2 ≤ ctx.get_entity_confidence e now) := by
  have hval : ∀ n : ℚ, ctx.get_entity_confidence e n =
      if n - t > 600 then max 0 (e.confidence - (1/10) * ((n - t) / 600))
      else e.confidence := by
    intro n
    simp only [ConversationContext.get_entity_confidence, hts, Option.getD_some]
  refine ⟨?_, ?_, ?_, ?_, ?_⟩
  · intro h
    rw [hval, if_neg (not_lt.mpr h)]
  · intro h
    rw [hval, if_pos h]
  · rw [hval]
    split_ifs with h
    · exact le_max_left 0 _
    · exact h0
  · rw [hval]
    split_ifs with h
    · refine max_le h0 ?_
      have hd : (1/10 : ℚ) * ((now - t) / 600) = (now - t) / 6000 := by ring
      rw [hd]
      have hnn : 0 ≤ (now - t) / 6000 := by linarith
      linarith
    · exact le_refl _
  · intro n2 h2
    rw [hval, hval]
    have hd1 : (1/10 : ℚ) * ((now - t) / 600) = (now - t) / 6000 := by ring
    have hd2 : (1/10 : ℚ) * ((n2 - t) / 600) = (n2 - t) / 6000 := by ring
    split_ifs with ha hb hb
    · rw [hd1, hd2]
      refine max_le_max (le_refl 0) ?_
      have : (now - t) / 6000 ≤ (n2 - t) / 6000 := by linarith
      linarith
    · rw [hd2]
      refine max_le h0 ?_
      have hnn : 0 ≤ (n2 - t) / 6000 := by linarith
      linarith
    · exact absurd (by linarith : (600 : ℚ) < n2 - t) ha
    · exact le_refl _

/-- C5 witness: the entity recorded at time 5 keeps its stored confidence
when read at time 5. -/
theorem claim_C5_witness : c5ctx.get_entity_confidence plEnt 5 = plEnt.confidence :=
  (claim_C5 c5ctx plEnt 5 5 (by with_unfolding_all decide) (by with_unfolding_all decide)
    (by with_unfolding_all decide)).1 (by norm_num)

/-- C10: an entity whose key is absent from `entity_timestamps` is treated
as stamped at epoch 0, so at any query time at least 6000 s after the epoch
its decayed confidence is exactly 0 (for stored confidence at most 1), it is
inactive, and any read-time prune removes it. -/
theorem claim_C10 (ctx : ConversationContext) (e : Entity) (now : ℚ)
    (hts : dictGet ctx.entity_timestamps (entityKey e) = none)
    (h1 : e.confidence ≤ 1) (hn : 6000 ≤ now) :
    ctx.get_entity_confidence e now = 0 ∧
    ctx.is_entity_active e now = false ∧
    (∀ t : EntityType, e ∉ (dictGet (ctx.clean_expired now).entities t).getD []) := by
  refine ⟨?_, ?_, ?_⟩
  · simp only [ConversationContext.get_entity_confidence, hts, Option.getD_none]
    rw [if_pos (by linarith)]
    have hd : (1/10 : ℚ) * ((now - 0) / 600) = now / 6000 := by ring
    rw [hd]
    refine max_eq_left ?_
    have : (1 : ℚ) ≤ now / 6000 := by linarith
    linarith
  · simp only [ConversationContext.is_entity_active, hts, Option.getD_none]
    refine decide_eq_false ?_
    intro hc
    linarith
  · intro t hmem
    have hact := mem_clean_is_active ctx now t e hmem
    rw [ConversationContext.is_entity_active, hts] at hact
    simp only [Option.getD_none] at hact
    have h2 := of_decide_eq_true hact
    linarith

/-- C10 witness: the unstamped entity reads as confidence 0 at time 6000. -/
theorem claim_C10_witness : c10ctx.get_entity_confidence plEnt 6000 = 0 :=
  (claim_C10 c10ctx plEnt 6000 (by with_unfolding_all decide) (by with_unfolding_all decide)
    (by norm_num)).1

/-- C6: `add_entities` is idempotent on membership — when a stored entity of
the same type matches case-insensitively on value with equal id, the
per-type count is unchanged and the first matching entry is replaced in
place by the updated entity whose confidence is the max of the two, with the
timestamp key of the incoming entity refreshed to the add time; a non-matching
entity is appended; and every `add_entities` call sets `last_active`. -/
theorem claim_C6 (ctx : ConversationContext) (e : Entity) (now : ℚ) :
    ((∃ x ∈ (dictGet ctx.entities e.type).getD [], entityMatches e x = true) →
      ((dictGet (ctx.add_entities now [e]).entities e.type).getD []).length =
        ((dictGet ctx.entities e.type).getD []).length) ∧
    (∀ l1 x l2, (dictGet ctx.entities e.type).getD [] = l1 ++ x :: l2 →
      (∀ y ∈ l1, entityMatches e y = false) → entityMatches e x = true →
      (dictGet (ctx.add_entities now [e]).entities e.type).getD [] =
        l1 ++ updatedEntity x e :: l2 ∧
      (updatedEntity x e).confidence = max x.confidence e.confidence) ∧
    ((∀ x ∈ (dictGet ctx.entities e.type).getD [], entityMatches e x = false) →
      (dictGet (ctx.add_entities now [e]).entities e.type).getD [] =
        (dictGet ctx.entities e.type).getD [] ++ [e]) ∧
    dictGet (ctx.add_entities now [e]).entity_timestamps (entityKey e) = some now ∧
    (∀ es : List Entity, (ctx.add_entities now es).last_active = now) := by
  have hE : (ctx.add_entities now [e]).entities =
      dictSet ctx.entities e.type (updateList e ((dictGet ctx.entities e.type).getD [])) := rfl
  have hT : (ctx.add_entities now [e]).entity_timestamps =
      dictSet ctx.entity_timestamps (entityKey e) now := rfl
  refine ⟨?_, ?_, ?_, ?_, ?_⟩
  · intro hex
    rw [hE, dictGet_dictSet_self, Option.getD_some]
    exact updateList_length_of_match e _ hex
  · intro l1 x l2 hdec hl1 hx
    refine ⟨?_, rfl⟩
    rw [hE, dictGet_dictSet_self, Option.getD_some, hdec]
    exact updateList_first_match e x l1 l2 hl1 hx
  · intro hno
    rw [hE, dictGet_dictSet_self, Option.getD_some]
    exact updateList_no_match e _ hno
  · rw [hT]
    exact dictGet_dictSet_self _ _ _
  · exact add_entities_last_active ctx now

/-- C6 witness: re-adding the Premier League entity with different casing
and lower confidence leaves the per-type count unchanged. -/
theorem claim_C6_witness :
    ((dictGet (c6ctx.add_entities 1 [c6e2]).entities c6e2.type).getD []).length =
      ((dictGet c6ctx.entities c6e2.type).getD []).length :=
  (claim_C6 c6ctx c6e2 1).1
    ⟨c6e1, by with_unfolding_all decide, by with_unfolding_all decide⟩

/-- C3 (corrected/amended): the backfill guard at processor.py line 407
tests the literal slot keys `"competition"` and `"team"`, which the binder
never produces (slots are keyed `<type>_<index>`), so whenever the URI of the
resolved resource contains `{id}`, the intent name is competition-shaped
(resp. `get_team_matches`), and the context holds entities of that type, a
`competition_context` (resp. `team_context`) slot IS added — regardless of
the current-turn entities — holding a context entity of maximal decayed
confidence. -/
theorem claim_C3 (now : ℚ) (intent_name : String) (res : ApiResource)
    (entities : List Entity) (ctx : ConversationContext) :
    (intent_name ∈ compContextIntents →
      hasSegment res.uri.data "{id}".data = true →
      (ctx.get_entities_by_type now .competition).1 ≠ [] →
      ∃ best,
        ("competition_context", best) ∈
          (addContextEntities now intent_name res (bindEntities entities) ctx).1 ∧
        best ∈ (ctx.get_entities_by_type now .competition).1 ∧
        ∀ x ∈ (ctx.get_entities_by_type now .competition).1,
          ((ctx.get_entities_by_type now .competition).2).get_entity_confidence x now ≤
            ((ctx.get_entities_by_type now .competition).2).get_entity_confidence best now) ∧
    (intent_name = "get_team_matches" →
      hasSegment res.uri.data "{id}".data = true →
      (ctx.get_entities_by_type now .team).1 ≠ [] →
      ∃ best,
        ("team_context", best) ∈
          (addContextEntities now intent_name res (bindEntities entities) ctx).1 ∧
        best ∈ (ctx.get_entities_by_type now .team).1 ∧
        ∀ x ∈ (ctx.get_entities_by_type now .team).1,
          ((ctx.get_entities_by_type now .team).2).get_entity_confidence x now ≤
            ((ctx.get_entities_by_type now .team).2).get_entity_confidence best now) := by
  have hres := bindEntities_reserved_none entities
  constructor
  · intro h1 h2 h3
    rw [addContextEntities]
    rw [h2, hres.1, hres.2]
    simp only [Option.isNone_none, Bool.and_self, if_true, if_pos h1]
    rcases hs : pythonSortDesc
        (fun x => ((ctx.get_entities_by_type now .competition).2).get_entity_confidence x now)
        (ctx.get_entities_by_type now .competition).1 with _ | ⟨best, rest⟩
    · have hperm := pythonSortDesc_perm
        (fun x => ((ctx.get_entities_by_type now .competition).2).get_entity_confidence x now)
        (ctx.get_entities_by_type now .competition).1
      rw [hs] at hperm
      exact absurd hperm.symm.eq_nil h3
    · obtain ⟨hmem, hmax⟩ := pythonSortDesc_head_max _ _ _ _ hs
      exact ⟨best, mem_dictSet_self _ _ _, hmem, hmax⟩
  · intro h1 h2 h3
    subst h1
    rw [addContextEntities]
    rw [h2, hres.1, hres.2]
    simp only [Option.isNone_none, Bool.and_self, if_true,
      if_neg (by decide : ¬("get_team_matches" ∈ compContextIntents)), if_pos rfl]
    rcases hs : pythonSortDesc
        (fun x => ((ctx.get_entities_by_type now .team).2).get_entity_confidence x now)
        (ctx.get_entities_by_type now .team).1 with _ | ⟨best, rest⟩
    · have hperm := pythonSortDesc_perm
        (fun x => ((ctx.get_entities_by_type now .team).2).get_entity_confidence x now)
        (ctx.get_entities_by_type now .team).1
      rw [hs] at hperm
      exact absurd hperm.symm.eq_nil h3
    · obtain ⟨hmem, hmax⟩ := pythonSortDesc_head_max _ _ _ _ hs
      exact ⟨best, mem_dictSet_self _ _ _, hmem, hmax⟩

/-- C3 witness: with the current-turn Premier League entity both bound and
in context, a `get_standings` intent over the standings resource still
receives a `competition_context` slot of maximal decayed confidence. -/
theorem claim_C3_witness :
    ∃ best,
      ("competition_context", best) ∈
        (addContextEntities 0 "get_standings" c3res (bindEntities [plEnt]) c3ctx).1 ∧
      best ∈ (c3ctx.get_entities_by_type 0 .competition).1 ∧
      ∀ x ∈ (c3ctx.get_entities_by_type 0 .competition).1,
        ((c3ctx.get_entities_by_type 0 .competition).2).get_entity_confidence x 0 ≤
          ((c3ctx.get_entities_by_type 0 .competition).2).get_entity_confidence best 0 :=
  (claim_C3 0 "get_standings" c3res [plEnt] c3ctx).1 (by decide)
    (by with_unfolding_all decide) (by with_unfolding_all decide)
